import Mathlib

set_option maxRecDepth 10000

/-!
Shallow embedding of the rustynes NMOS 6502 emulator core
(src/cpu.rs, src/op_codes.rs, src/processor.rs, src/stack.rs).

Machine integers are modelled as `Nat` with explicit `% 256` / `% 65536`
at the points where the Rust code wraps or casts.  Rust panics
(`todo!()`, `expect`, `panic!`, array index out of bounds, debug-mode
arithmetic overflow) are modelled as `Except Fault` errors.
-/

/-- Faults corresponding to Rust panics/aborts in the source:
`codeNotRecognized` models the `expect("code not recognized")` in `run`,
`indexOutOfBounds` an array index past the end of the `[u8; 0xFFFF]`
memory array, `todoUnimplemented` a `todo!()` handler, `unsupportedMode`
the `panic!` in `get_operand_address` (and in `jmp`), `subUnderflow` and
`addOverflow` debug-mode unsigned over/underflow, and `unknownMnemonic`
the catch-all `panic!()` in `run`. -/
inductive Fault where
  | codeNotRecognized (code : Nat)
  | indexOutOfBounds (idx : Nat)
  | todoUnimplemented (mnemonic : String)
  | unsupportedMode
  | subUnderflow
  | addOverflow
  | unknownMnemonic
  deriving DecidableEq

/-- Processor status register (src/processor.rs): a single byte of flags,
bit 0 Carry, bit 1 Zero, bit 2 Interrupt-disable, bit 3 Decimal,
bits 4-5 unused, bit 6 Overflow, bit 7 Negative. -/
structure Processor where
  flags : Nat
  deriving DecidableEq

namespace Processor

/-- `Processor::new`: flags start as `0b0011_0000`. -/
def new : Processor := ⟨0b00110000⟩

def carry (p : Processor) : Nat := (p.flags >>> 0) &&& 1

def zero (p : Processor) : Nat := (p.flags >>> 1) &&& 1

def interrupt (p : Processor) : Nat := (p.flags >>> 2) &&& 1

def decimal (p : Processor) : Nat := (p.flags >>> 3) &&& 1

def overflow (p : Processor) : Nat := (p.flags >>> 6) &&& 1

def negative (p : Processor) : Nat := (p.flags >>> 7) &&& 1

def set_carry (p : Processor) : Processor := ⟨p.flags ||| 0b00000001⟩

def set_zero (p : Processor) : Processor := ⟨p.flags ||| 0b00000010⟩

def set_interrupt (p : Processor) : Processor := ⟨p.flags ||| 0b00000100⟩

def set_decimal (p : Processor) : Processor := ⟨p.flags ||| 0b00001000⟩

def set_overflow (p : Processor) : Processor := ⟨p.flags ||| 0b01000000⟩

def set_negative (p : Processor) : Processor := ⟨p.flags ||| 0b10000000⟩

def clear_carry (p : Processor) : Processor := ⟨p.flags &&& 0b11111110⟩

def clear_zero (p : Processor) : Processor := ⟨p.flags &&& 0b11111101⟩

def clear_interrupt (p : Processor) : Processor := ⟨p.flags &&& 0b11111011⟩

def clear_decimal (p : Processor) : Processor := ⟨p.flags &&& 0b11110111⟩

def clear_overflow (p : Processor) : Processor := ⟨p.flags &&& 0b10111111⟩

def clear_negative (p : Processor) : Processor := ⟨p.flags &&& 0b01111111⟩

/-- The composite zero/negative update of
`CPU::update_zero_and_negative_flags` (src/cpu.rs), expressed as the
status-register transformation it performs: Zero from `result == 0`,
Negative from `result & 0b1000_0000`. -/
def update_zero_and_negative (p : Processor) (result : Nat) : Processor :=
  let p := if result = 0 then p.set_zero else p.clear_zero
  if result &&& 0b10000000 ≠ 0 then p.set_negative else p.clear_negative

end Processor

/-- Processor states reachable through the status API: `Processor::new`
followed by any sequence of the set/clear accessors and the composite
zero/negative update. -/
inductive PReach : Processor → Prop where
  | new_ : PReach Processor.new
  | step_set_carry (p : Processor) (h : PReach p) : PReach p.set_carry
  | step_set_zero (p : Processor) (h : PReach p) : PReach p.set_zero
  | step_set_interrupt (p : Processor) (h : PReach p) : PReach p.set_interrupt
  | step_set_decimal (p : Processor) (h : PReach p) : PReach p.set_decimal
  | step_set_overflow (p : Processor) (h : PReach p) : PReach p.set_overflow
  | step_set_negative (p : Processor) (h : PReach p) : PReach p.set_negative
  | step_clear_carry (p : Processor) (h : PReach p) : PReach p.clear_carry
  | step_clear_zero (p : Processor) (h : PReach p) : PReach p.clear_zero
  | step_clear_interrupt (p : Processor) (h : PReach p) : PReach p.clear_interrupt
  | step_clear_decimal (p : Processor) (h : PReach p) : PReach p.clear_decimal
  | step_clear_overflow (p : Processor) (h : PReach p) : PReach p.clear_overflow
  | step_clear_negative (p : Processor) (h : PReach p) : PReach p.clear_negative
  | step_update (p : Processor) (r : Nat) (h : PReach p) :
      PReach (p.update_zero_and_negative r)

/-- Call-stack bookkeeping (src/stack.rs).  The pointer field is `_ptr`
in the source; it is an 8-bit value. -/
structure Stack where
  bottom : Nat
  top : Nat
  ptr8 : Nat
  deriving DecidableEq

namespace Stack

/-- `Stack::new(bottom, top)`: `_ptr = bottom as u8`. -/
def new (bottom top : Nat) : Stack := ⟨bottom, top, bottom % 256⟩

/-- `Stack::ptr()`: widen the 8-bit pointer to 16 bits. -/
def ptr (s : Stack) : Nat := s.ptr8

/-- `Stack::decr_ptr`: `_ptr.wrapping_add(1)` (the stack grows downward). -/
def decr_ptr (s : Stack) : Stack := { s with ptr8 := (s.ptr8 + 1) % 256 }

/-- `Stack::incr_ptr`: `_ptr.wrapping_sub(1)`. -/
def incr_ptr (s : Stack) : Stack := { s with ptr8 := (s.ptr8 + 255) % 256 }

/-- Modelled from the spec: `Stack::set_ptr` is called from `cpu.rs`
(`txs`) but is missing from `stack.rs`; per §4.3 the pointer has a
write accessor supporting `TXS`, which stores the given 8-bit value. -/
def set_ptr (s : Stack) (v : Nat) : Stack := { s with ptr8 := v % 256 }

end Stack

def STACK_BOTTOM : Nat := 0x01FF

def STACK_TOP : Nat := 0x0100

/-- Length of the Rust memory array `[u8; 0xFFFF]` (65535 bytes). -/
def MEM_SIZE : Nat := 0xFFFF

/-- Addressing modes (src/cpu.rs). -/
inductive AddressingMode where
  | Immediate
  | ZeroPage
  | ZeroPage_X
  | ZeroPage_Y
  | Absolute
  | Absolute_X
  | Absolute_Y
  | Indirect
  | Indirect_X
  | Indirect_Y
  | NoneAddressing
  deriving DecidableEq

/-- Opcode descriptor (src/op_codes.rs). -/
structure OpCode where
  code : Nat
  mnemonic : String
  len : Nat
  cycles : Nat
  mode : AddressingMode
  deriving DecidableEq

/-- The opcode vector `NMOS_6502_OPCODES`, row for row as in the source. -/
def NMOS_6502_OPCODES : List OpCode := [
  ⟨0x00, "BRK", 1, 7, AddressingMode.NoneAddressing⟩,
  ⟨0xA9, "INX", 1, 2, AddressingMode.NoneAddressing⟩,
  ⟨0xA9, "LDA", 2, 2, AddressingMode.Immediate⟩,
  ⟨0xA5, "LDA", 2, 3, AddressingMode.ZeroPage⟩,
  ⟨0xB5, "LDA", 2, 4, AddressingMode.ZeroPage_X⟩,
  ⟨0xAD, "LDA", 3, 4, AddressingMode.Absolute⟩,
  ⟨0xBD, "LDA", 3, 4, AddressingMode.Absolute_X⟩,
  ⟨0xB9, "LDA", 3, 4, AddressingMode.Absolute_Y⟩,
  ⟨0xA1, "LDA", 2, 6, AddressingMode.Indirect_X⟩,
  ⟨0xB1, "LDA", 2, 5, AddressingMode.Indirect_Y⟩,
  ⟨0x85, "STA", 2, 3, AddressingMode.ZeroPage⟩,
  ⟨0x95, "STA", 2, 4, AddressingMode.ZeroPage_X⟩,
  ⟨0x8D, "STA", 3, 4, AddressingMode.Absolute⟩,
  ⟨0x9D, "STA", 3, 5, AddressingMode.Absolute_X⟩,
  ⟨0x99, "STA", 3, 5, AddressingMode.Absolute_Y⟩,
  ⟨0x81, "STA", 2, 6, AddressingMode.Indirect_X⟩,
  ⟨0x91, "STA", 2, 6, AddressingMode.Indirect_Y⟩,
  ⟨0x91, "TAX", 1, 2, AddressingMode.NoneAddressing⟩]

/-- Lookup in `NMOS_6502_OPCODES_MAP`: the `HashMap` is built by
inserting every row of `NMOS_6502_OPCODES` in order, and a later insert
with the same `code` key overwrites an earlier one, so `get` returns the
last row of the vector carrying that code (or `none`). -/
def NMOS_6502_OPCODES_MAP_get (code : Nat) : Option OpCode :=
  NMOS_6502_OPCODES.foldl (fun acc op => if op.code = code then some op else acc) none

/-- Rust `u8::wrapping_add`. -/
def wrapping_add8 (a b : Nat) : Nat := (a + b) % 256

/-- Rust `u16::wrapping_add`. -/
def wrapping_add16 (a b : Nat) : Nat := (a + b) % 65536

/-- Rust `u8::wrapping_sub`. -/
def wrapping_sub8 (a b : Nat) : Nat := (a % 256 + 256 - b % 256) % 256

/-- Rust plain `-` on an unsigned integer: underflow panics (debug
semantics; the source uses `wrapping_sub` wherever wrapping is intended). -/
def checked_sub (a b : Nat) : Except Fault Nat :=
  if b ≤ a then .ok (a - b) else .error Fault.subUnderflow

/-- Rust plain `+` on `u16`: overflow past 16 bits panics (debug
semantics). -/
def checked_add_u16 (a b : Nat) : Except Fault Nat :=
  if a + b < 65536 then .ok (a + b) else .error Fault.addOverflow

/-- CPU state (src/cpu.rs).  The Rust `memory` field is `[u8; 0xFFFF]`;
here `memory` gives the array contents at each index `< MEM_SIZE`. -/
structure CPU where
  register_a : Nat
  register_x : Nat
  register_y : Nat
  status : Processor
  program_counter : Nat
  stack : Stack
  memory : Nat → Nat

namespace CPU

/-- `CPU::new()`. -/
def new : CPU :=
  { register_a := 0
    register_x := 0
    register_y := 0
    status := Processor.new
    program_counter := 0
    stack := Stack.new STACK_BOTTOM STACK_TOP
    memory := fun _ => 0 }

/-- `Mem::mem_read` for `CPU`: `self.memory[addr as usize]`; an index at
or past `MEM_SIZE` is out of bounds and panics. -/
def mem_read (c : CPU) (addr : Nat) : Except Fault Nat :=
  if addr < MEM_SIZE then .ok (c.memory addr)
  else .error (Fault.indexOutOfBounds addr)

/-- `Mem::mem_write` for `CPU`: `self.memory[addr as usize] = data`. -/
def mem_write (c : CPU) (addr data : Nat) : Except Fault CPU :=
  if addr < MEM_SIZE then
    .ok { c with memory := fun a => if a = addr then data else c.memory a }
  else .error (Fault.indexOutOfBounds addr)

/-- `Mem::mem_read_u16`: little-endian, low byte at `pos`, high at `pos + 1`. -/
def mem_read_u16 (c : CPU) (pos : Nat) : Except Fault Nat := do
  let lo ← c.mem_read pos
  let hi ← c.mem_read (pos + 1)
  return (hi <<< 8) ||| lo

/-- `Mem::mem_write_u16`: low byte to `pos`, high byte to `pos + 1`. -/
def mem_write_u16 (c : CPU) (pos data : Nat) : Except Fault CPU := do
  let hi := data >>> 8
  let lo := data &&& 0xff
  let c ← c.mem_write pos lo
  c.mem_write (pos + 1) hi

/-- `CPU::update_zero_and_negative_flags(result)`: applies the composite
zero/negative update to the status register. -/
def update_zero_and_negative_flags (c : CPU) (result : Nat) : CPU :=
  { c with status := c.status.update_zero_and_negative result }

/-- `CPU::get_operand_address(mode)`. -/
def get_operand_address (c : CPU) (mode : AddressingMode) : Except Fault Nat :=
  match mode with
  | AddressingMode.Immediate => .ok c.program_counter
  | AddressingMode.ZeroPage => c.mem_read c.program_counter
  | AddressingMode.ZeroPage_X => do
      let pos ← c.mem_read c.program_counter
      return wrapping_add8 pos c.register_x
  | AddressingMode.ZeroPage_Y => do
      let pos ← c.mem_read c.program_counter
      return wrapping_add8 pos c.register_y
  | AddressingMode.Absolute => c.mem_read_u16 c.program_counter
  | AddressingMode.Absolute_X => do
      let pos ← c.mem_read_u16 c.program_counter
      return wrapping_add16 pos c.register_x
  | AddressingMode.Absolute_Y => do
      let pos ← c.mem_read_u16 c.program_counter
      return wrapping_add16 pos c.register_y
  | AddressingMode.Indirect => do
      let base ← c.mem_read c.program_counter
      let ptr := base % 256
      let lo ← c.mem_read ptr
      let hi ← c.mem_read (wrapping_add8 ptr 1)
      if lo = 0x0ff then
        return ((ptr &&& 0xff00) <<< 8) ||| lo
      else
        return (hi <<< 8) ||| lo
  | AddressingMode.Indirect_X => do
      let base ← c.mem_read c.program_counter
      let ptr := wrapping_add8 base c.register_x
      let lo ← c.mem_read ptr
      let hi ← c.mem_read (wrapping_add8 ptr 1)
      return (hi <<< 8) ||| lo
  | AddressingMode.Indirect_Y => do
      let base ← c.mem_read c.program_counter
      let lo ← c.mem_read (base % 256)
      let hi ← c.mem_read (wrapping_add8 base 1)
      let deref_base := (hi <<< 8) ||| lo
      return wrapping_add16 deref_base c.register_y
  | AddressingMode.NoneAddressing => .error Fault.unsupportedMode

/-- `CPU::and`. -/
def and (c : CPU) (op : OpCode) : Except Fault CPU := do
  let addr ← c.get_operand_address op.mode
  let data ← c.mem_read addr
  let c := { c with register_a := c.register_a &&& data }
  return c.update_zero_and_negative_flags c.register_a

/-- `CPU::handle_accumulator_asl`: Carry from bit 7, then shift left. -/
def handle_accumulator_asl (c : CPU) : CPU × Nat :=
  let data := c.register_a
  let c :=
    if (data >>> 7) &&& 1 = 1 then { c with status := c.status.set_carry }
    else { c with status := c.status.clear_carry }
  let data := (data <<< 1) % 256
  ({ c with register_a := data }, data)

/-- `CPU::handle_non_accumulator_asl`. -/
def handle_non_accumulator_asl (c : CPU) (op : OpCode) : Except Fault (CPU × Nat) := do
  let addr ← c.get_operand_address op.mode
  let data ← c.mem_read addr
  let c :=
    if (data >>> 7) &&& 1 = 1 then { c with status := c.status.set_carry }
    else { c with status := c.status.clear_carry }
  let data := (data <<< 1) % 256
  let c ← c.mem_write addr data
  return (c, data)

/-- `CPU::asl`: accumulator target picked exactly for opcode `0x0A`. -/
def asl (c : CPU) (op : OpCode) : Except Fault (CPU × Nat) := do
  let (c, data) ←
    match op.code with
    | 0x0A => pure c.handle_accumulator_asl
    | _ => c.handle_non_accumulator_asl op
  return (c.update_zero_and_negative_flags data, data)

/-- `CPU::clc`. -/
def clc (c : CPU) : CPU := { c with status := c.status.clear_carry }

/-- `CPU::cld`. -/
def cld (c : CPU) : CPU := { c with status := c.status.clear_decimal }

/-- `CPU::cli`. -/
def cli (c : CPU) : CPU := { c with status := c.status.clear_interrupt }

/-- `CPU::clv`. -/
def clv (c : CPU) : CPU := { c with status := c.status.clear_overflow }

/-- `CPU::cmp`: three independent `if`s; Carry/Zero only ever set, never
cleared, and the Negative test looks at bit 1 (`>> 1 & 1`) of the
wrapping subtraction. -/
def cmp (c : CPU) (op : OpCode) : Except Fault CPU := do
  let addr ← c.get_operand_address op.mode
  let data ← c.mem_read addr
  let register_data := c.register_a
  let c := if data ≤ register_data then { c with status := c.status.set_carry } else c
  let c := if register_data = data then { c with status := c.status.set_zero } else c
  let c :=
    if (wrapping_sub8 register_data data >>> 1) &&& 1 = 1 then
      { c with status := c.status.set_negative }
    else c
  return c

/-- `CPU::cpx`: same shape as `cmp`, register X. -/
def cpx (c : CPU) (op : OpCode) : Except Fault CPU := do
  let addr ← c.get_operand_address op.mode
  let data ← c.mem_read addr
  let register_data := c.register_x
  let c := if data ≤ register_data then { c with status := c.status.set_carry } else c
  let c := if register_data = data then { c with status := c.status.set_zero } else c
  let c :=
    if (wrapping_sub8 register_data data >>> 1) &&& 1 = 1 then
      { c with status := c.status.set_negative }
    else c
  return c

/-- `CPU::cpy`: unlike `cmp`/`cpx`, Zero is the `else if` branch of the
Carry test, and the Negative test uses the plain (panicking)
subtraction `self.register_y - data`. -/
def cpy (c : CPU) (op : OpCode) : Except Fault CPU := do
  let addr ← c.get_operand_address op.mode
  let data ← c.mem_read addr
  let c :=
    if data ≤ c.register_y then { c with status := c.status.set_carry }
    else if c.register_y = data then { c with status := c.status.set_zero }
    else c
  let diff ← checked_sub c.register_y data
  let c :=
    if (diff >>> 1) &&& 1 = 1 then { c with status := c.status.set_negative }
    else c
  return c

/-- `CPU::dec`: decrement memory with explicit `0 → 255` wraparound. -/
def dec (c : CPU) (op : OpCode) : Except Fault (CPU × Nat) := do
  let addr ← c.get_operand_address op.mode
  let data ← c.mem_read addr
  let data := if data = 0 then 255 else data - 1
  let c ← c.mem_write addr data
  let c := c.update_zero_and_negative_flags data
  return (c, data)

/-- `CPU::dex`. -/
def dex (c : CPU) : CPU :=
  let c := { c with register_x := if c.register_x = 0 then 255 else c.register_x - 1 }
  c.update_zero_and_negative_flags c.register_x

/-- `CPU::dey`. -/
def dey (c : CPU) : CPU :=
  let c := { c with register_y := if c.register_y = 0 then 255 else c.register_y - 1 }
  c.update_zero_and_negative_flags c.register_y

/-- `CPU::eor`. -/
def eor (c : CPU) (op : OpCode) : Except Fault CPU := do
  let addr ← c.get_operand_address op.mode
  let data ← c.mem_read addr
  let c := { c with register_a := c.register_a ^^^ data }
  return c.update_zero_and_negative_flags c.register_a

/-- `CPU::inc`: increment memory with explicit `255 → 0` wraparound. -/
def inc (c : CPU) (op : OpCode) : Except Fault (CPU × Nat) := do
  let addr ← c.get_operand_address op.mode
  let data ← c.mem_read addr
  let data := if data = 255 then 0 else data + 1
  let c ← c.mem_write addr data
  let c := c.update_zero_and_negative_flags data
  return (c, data)

/-- `CPU::inx`. -/
def inx (c : CPU) : CPU :=
  let c := { c with register_x := if c.register_x = 255 then 0 else c.register_x + 1 }
  c.update_zero_and_negative_flags c.register_x

/-- `CPU::iny`. -/
def iny (c : CPU) : CPU :=
  let c := { c with register_y := if c.register_y = 255 then 0 else c.register_y + 1 }
  c.update_zero_and_negative_flags c.register_y

/-- `CPU::jmp`: reads the 16-bit operand at the program counter; for the
indirect (`NoneAddressing`) variant, when the pointer's low byte is
`0xFF` the high byte is fetched from `addr & 0x00FF` (as written in the
source), otherwise a plain little-endian dereference. -/
def jmp (c : CPU) (op : OpCode) : Except Fault CPU := do
  let addr ← c.mem_read_u16 c.program_counter
  match op.mode with
  | AddressingMode.Absolute => return { c with program_counter := addr }
  | AddressingMode.NoneAddressing => do
      let indirect_ref ←
        if addr &&& 0x00FF = 0x00FF then do
          let lo ← c.mem_read addr
          let hi ← c.mem_read (addr &&& 0x00FF)
          pure ((hi <<< 8) ||| lo)
        else c.mem_read_u16 addr
      return { c with program_counter := indirect_ref }
  | _ => .error Fault.unsupportedMode

/-- `CPU::lda`. -/
def lda (c : CPU) (op : OpCode) : Except Fault CPU := do
  let addr ← c.get_operand_address op.mode
  let data ← c.mem_read addr
  let c := { c with register_a := data }
  return c.update_zero_and_negative_flags c.register_a

/-- `CPU::ldx`. -/
def ldx (c : CPU) (op : OpCode) : Except Fault CPU := do
  let addr ← c.get_operand_address op.mode
  let data ← c.mem_read addr
  let c := { c with register_x := data }
  return c.update_zero_and_negative_flags c.register_x

/-- `CPU::ldy`. -/
def ldy (c : CPU) (op : OpCode) : Except Fault CPU := do
  let addr ← c.get_operand_address op.mode
  let data ← c.mem_read addr
  let c := { c with register_y := data }
  return c.update_zero_and_negative_flags c.register_y

/-- `CPU::handle_accumulator_lsr`: Carry from bit 0, then shift right. -/
def handle_accumulator_lsr (c : CPU) : CPU × Nat :=
  let data := c.register_a
  let c :=
    if (data >>> 0) &&& 1 = 1 then { c with status := c.status.set_carry }
    else { c with status := c.status.clear_carry }
  let data := data >>> 1
  ({ c with register_a := data }, data)

/-- `CPU::handle_non_accumulator_lsr`. -/
def handle_non_accumulator_lsr (c : CPU) (op : OpCode) : Except Fault (CPU × Nat) := do
  let addr ← c.get_operand_address op.mode
  let data ← c.mem_read addr
  let c :=
    if (data >>> 0) &&& 1 = 1 then { c with status := c.status.set_carry }
    else { c with status := c.status.clear_carry }
  let data := data >>> 1
  let c ← c.mem_write addr data
  return (c, data)

/-- `CPU::lsr`: accumulator target picked exactly for opcode `0x4A`. -/
def lsr (c : CPU) (op : OpCode) : Except Fault (CPU × Nat) := do
  let (c, data) ←
    match op.code with
    | 0x4A => pure c.handle_accumulator_lsr
    | _ => c.handle_non_accumulator_lsr op
  return (c.update_zero_and_negative_flags data, data)

/-- `CPU::nop`. -/
def nop (c : CPU) : CPU := c

/-- `CPU::ora`. -/
def ora (c : CPU) (op : OpCode) : Except Fault CPU := do
  let addr ← c.get_operand_address op.mode
  let data ← c.mem_read addr
  let c := { c with register_a := c.register_a ||| data }
  return c.update_zero_and_negative_flags c.register_a

/-- `CPU::handle_accumulator_rol`: as written in the source, Carry is
captured from bit 0 (`data >> 0 & 1`), then `data = data << 1 | old_carry`. -/
def handle_accumulator_rol (c : CPU) : CPU × Nat :=
  let data := c.register_a
  let old_carry := c.status.carry
  let c :=
    if (data >>> 0) &&& 1 = 1 then { c with status := c.status.set_carry }
    else { c with status := c.status.clear_carry }
  let data := ((data <<< 1) % 256) ||| old_carry
  ({ c with register_a := data }, data)

/-- `CPU::handle_non_accumulator_rol`. -/
def handle_non_accumulator_rol (c : CPU) (op : OpCode) : Except Fault (CPU × Nat) := do
  let addr ← c.get_operand_address op.mode
  let data ← c.mem_read addr
  let old_carry := c.status.carry
  let c :=
    if (data >>> 0) &&& 1 = 1 then { c with status := c.status.set_carry }
    else { c with status := c.status.clear_carry }
  let data := ((data <<< 1) % 256) ||| old_carry
  let c ← c.mem_write addr data
  return (c, data)

/-- `CPU::rol`: accumulator target picked exactly for opcode `0x2A`. -/
def rol (c : CPU) (op : OpCode) : Except Fault (CPU × Nat) := do
  let (c, data) ←
    match op.code with
    | 0x2A => pure c.handle_accumulator_rol
    | _ => c.handle_non_accumulator_rol op
  return (c.update_zero_and_negative_flags data, data)

/-- `CPU::handle_accumulator_ror`: as written in the source, Carry is
captured from bit 7 (`data >> 7 & 1`), then shift right and insert the
old Carry into bit 7. -/
def handle_accumulator_ror (c : CPU) : CPU × Nat :=
  let data := c.register_a
  let old_carry := c.status.carry
  let c :=
    if (data >>> 7) &&& 1 = 1 then { c with status := c.status.set_carry }
    else { c with status := c.status.clear_carry }
  let data := data >>> 1
  let data := if old_carry = 1 then data ||| 0b10000000 else data
  ({ c with register_a := data }, data)

/-- `CPU::handle_non_accumulator_ror`. -/
def handle_non_accumulator_ror (c : CPU) (op : OpCode) : Except Fault (CPU × Nat) := do
  let addr ← c.get_operand_address op.mode
  let data ← c.mem_read addr
  let old_carry := c.status.carry
  let c :=
    if (data >>> 7) &&& 1 = 1 then { c with status := c.status.set_carry }
    else { c with status := c.status.clear_carry }
  let data := data >>> 1
  let data := if old_carry = 1 then data ||| 0b10000000 else data
  let c ← c.mem_write addr data
  return (c, data)

/-- `CPU::ror`: as written in the source, the accumulator target is
picked for opcode `0x2A` (not `0x6A`). -/
def ror (c : CPU) (op : OpCode) : Except Fault (CPU × Nat) := do
  let (c, data) ←
    match op.code with
    | 0x2A => pure c.handle_accumulator_ror
    | _ => c.handle_non_accumulator_ror op
  return (c.update_zero_and_negative_flags data, data)

/-- `CPU::sec`. -/
def sec (c : CPU) : CPU := { c with status := c.status.set_carry }

/-- `CPU::sed`. -/
def sed (c : CPU) : CPU := { c with status := c.status.set_decimal }

/-- `CPU::sei`. -/
def sei (c : CPU) : CPU := { c with status := c.status.set_interrupt }

/-- `CPU::sta`. -/
def sta (c : CPU) (op : OpCode) : Except Fault CPU := do
  let addr ← c.get_operand_address op.mode
  c.mem_write addr c.register_a

/-- `CPU::stx`. -/
def stx (c : CPU) (op : OpCode) : Except Fault CPU := do
  let addr ← c.get_operand_address op.mode
  c.mem_write addr c.register_x

/-- `CPU::sty`. -/
def sty (c : CPU) (op : OpCode) : Except Fault CPU := do
  let addr ← c.get_operand_address op.mode
  c.mem_write addr c.register_y

/-- `CPU::tax`. -/
def tax (c : CPU) : CPU :=
  let c := { c with register_x := c.register_a }
  c.update_zero_and_negative_flags c.register_x

/-- `CPU::tay`. -/
def tay (c : CPU) : CPU :=
  let c := { c with register_y := c.register_a }
  c.update_zero_and_negative_flags c.register_y

/-- `CPU::tsx`: `register_x = stack.ptr() as u8`; the source does not
touch the status flags here. -/
def tsx (c : CPU) : CPU := { c with register_x := c.stack.ptr % 256 }

/-- `CPU::txa`. -/
def txa (c : CPU) : CPU :=
  let c := { c with register_a := c.register_x }
  c.update_zero_and_negative_flags c.register_a

/-- `CPU::txs`: `stack.set_ptr(register_x)`; no flag effect. -/
def txs (c : CPU) : CPU := { c with stack := c.stack.set_ptr c.register_x }

/-- `CPU::tya`. -/
def tya (c : CPU) : CPU :=
  let c := { c with register_a := c.register_y }
  c.update_zero_and_negative_flags c.register_a

/-- `CPU::advance_program_counter(len)`: `pc += (len - 1) as u16`. -/
def advance_program_counter (c : CPU) (op_code_len : Nat) : Except Fault CPU := do
  let d ← checked_sub op_code_len 1
  let pc ← checked_add_u16 c.program_counter d
  return { c with program_counter := pc }

end CPU

/-- Outcome of one iteration of the `run` loop body: `done` is the Rust
`return` (the `BRK` arm), `next` continues the loop. -/
inductive StepOut where
  | done (c : CPU)
  | next (c : CPU)

namespace CPU

/-- The mnemonic dispatch of `CPU::run` (the big `match`), one arm per
mnemonic, `todo!()` arms exactly as in the source. -/
def exec_opcode (c : CPU) (op : OpCode) : Except Fault StepOut :=
  match op.mnemonic with
  | "ADC" => .error (Fault.todoUnimplemented "ADC")
  | "AND" => do let c ← c.and op; return StepOut.next c
  | "ASL" => do let r ← c.asl op; return StepOut.next r.1
  | "BCC" => .error (Fault.todoUnimplemented "BCC")
  | "BCS" => .error (Fault.todoUnimplemented "BCS")
  | "BEQ" => .error (Fault.todoUnimplemented "BEQ")
  | "BIT" => .error (Fault.todoUnimplemented "BIT")
  | "BMI" => .error (Fault.todoUnimplemented "BMI")
  | "BNE" => .error (Fault.todoUnimplemented "BNE")
  | "BPL" => .error (Fault.todoUnimplemented "BPL")
  | "BRK" => return StepOut.done c
  | "BVC" => .error (Fault.todoUnimplemented "BVC")
  | "BVS" => .error (Fault.todoUnimplemented "BVS")
  | "CLC" => return StepOut.next c.clc
  | "CLD" => return StepOut.next c.cld
  | "CLI" => return StepOut.next c.cli
  | "CLV" => return StepOut.next c.clv
  | "CMP" => do let c ← c.cmp op; return StepOut.next c
  | "CPX" => do let c ← c.cpx op; return StepOut.next c
  | "CPY" => do let c ← c.cpy op; return StepOut.next c
  | "DEC" => do let r ← c.dec op; return StepOut.next r.1
  | "DEX" => return StepOut.next c.dex
  | "DEY" => return StepOut.next c.dey
  | "EOR" => do let c ← c.eor op; return StepOut.next c
  | "INC" => do let r ← c.inc op; return StepOut.next r.1
  | "INX" => return StepOut.next c.inx
  | "INY" => return StepOut.next c.iny
  | "JMP" => do let c ← c.jmp op; return StepOut.next c
  | "JSR" => .error (Fault.todoUnimplemented "JSR")
  | "LDA" => do let c ← c.lda op; return StepOut.next c
  | "LDX" => do let c ← c.ldx op; return StepOut.next c
  | "LDY" => do let c ← c.ldy op; return StepOut.next c
  | "LSR" => do let r ← c.lsr op; return StepOut.next r.1
  | "NOP" => return StepOut.next c.nop
  | "ORA" => do let c ← c.ora op; return StepOut.next c
  | "PHA" => .error (Fault.todoUnimplemented "PHA")
  | "PHP" => .error (Fault.todoUnimplemented "PHP")
  | "PLA" => .error (Fault.todoUnimplemented "PLA")
  | "PLP" => .error (Fault.todoUnimplemented "PLP")
  | "ROL" => do let r ← c.rol op; return StepOut.next r.1
  | "ROR" => do let r ← c.ror op; return StepOut.next r.1
  | "RTI" => .error (Fault.todoUnimplemented "RTI")
  | "RTS" => .error (Fault.todoUnimplemented "RTS")
  | "SBC" => .error (Fault.todoUnimplemented "SBC")
  | "SEC" => return StepOut.next c.sec
  | "SED" => return StepOut.next c.sed
  | "SEI" => return StepOut.next c.sei
  | "STA" => do let c ← c.sta op; return StepOut.next c
  | "STX" => do let c ← c.stx op; return StepOut.next c
  | "STY" => do let c ← c.sty op; return StepOut.next c
  | "TAX" => return StepOut.next c.tax
  | "TAY" => return StepOut.next c.tay
  | "TSX" => return StepOut.next c.tsx
  | "TXA" => return StepOut.next c.txa
  | "TXS" => return StepOut.next c.txs
  | "TYA" => return StepOut.next c.tya
  | _ => .error Fault.unknownMnemonic

/-- One iteration of the `run` loop: fetch, bump the program counter,
look the byte up in the opcode map (`expect("code not recognized")`),
dispatch, and advance by `len - 1` unless the iteration returned. -/
def run_step (c : CPU) : Except Fault StepOut := do
  let code ← c.mem_read c.program_counter
  let pc1 ← checked_add_u16 c.program_counter 1
  let c := { c with program_counter := pc1 }
  match NMOS_6502_OPCODES_MAP_get code with
  | none => .error (Fault.codeNotRecognized code)
  | some op => do
    match ← c.exec_opcode op with
    | StepOut.done c => return StepOut.done c
    | StepOut.next c => do
      let c ← c.advance_program_counter op.len
      return StepOut.next c

/-- `CPU::run`, with explicit fuel: `.ok (some c)` means the loop
returned (via `BRK`) with final state `c`; `.ok none` means the fuel ran
out (the Rust loop would keep going). -/
def run (fuel : Nat) (c : CPU) : Except Fault (Option CPU) :=
  match fuel with
  | 0 => .ok none
  | fuel + 1 => do
    match ← c.run_step with
    | StepOut.done c => return some c
    | StepOut.next c => run fuel c

/-- `CPU::reset()`: zero the registers, fresh status, program counter
from the reset vector at `0xFFFC`. -/
def reset (c : CPU) : Except Fault CPU := do
  let c := { c with
    register_a := 0
    register_x := 0
    register_y := 0
    status := Processor.new }
  let pc ← c.mem_read_u16 0xFFFC
  return { c with program_counter := pc }

/-- Helper for `load`: write a list of bytes to consecutive addresses. -/
def writeBytes (m : Nat → Nat) (base : Nat) : List Nat → (Nat → Nat)
  | [] => m
  | b :: rest => writeBytes (fun a => if a = base then b else m a) (base + 1) rest

/-- `CPU::load(program)`: copy the program to `0x8000..` (the slice copy
panics if it runs past the end of the array) and write the reset vector. -/
def load (c : CPU) (program : List Nat) : Except Fault CPU := do
  if 0x8000 + program.length ≤ MEM_SIZE then
    let c := { c with memory := writeBytes c.memory 0x8000 program }
    c.mem_write_u16 0xFFFC 0x8000
  else .error (Fault.indexOutOfBounds (0x8000 + program.length))

/-- `CPU::load_and_run(program)` with explicit fuel for `run`. -/
def load_and_run (c : CPU) (fuel : Nat) (program : List Nat) :
    Except Fault (Option CPU) := do
  let c ← c.load program
  let c ← c.reset
  run fuel c

end CPU

/-- Projection: the fault of an errored computation. -/
def faultOf {α : Type} (r : Except Fault α) : Option Fault :=
  match r with
  | .ok _ => none
  | .error e => some e

/-- Projection: the value of a successful computation. -/
def okOf {α : Type} (r : Except Fault α) : Option α :=
  match r with
  | .ok v => some v
  | .error _ => none

/-- Projection: program counter of a successful CPU result. -/
def pcOf (r : Except Fault CPU) : Option Nat :=
  match r with
  | .ok c => some c.program_counter
  | .error _ => none

/-- Projection: status register of a successful CPU result. -/
def statusOf (r : Except Fault CPU) : Option Processor :=
  match r with
  | .ok c => some c.status
  | .error _ => none

/-- Projection: register A after a `next` step. -/
def stepNextRegA (r : Except Fault StepOut) : Option Nat :=
  match r with
  | .ok (StepOut.next c) => some c.register_a
  | _ => none

/-- Projection: register X after a `next` step. -/
def stepNextRegX (r : Except Fault StepOut) : Option Nat :=
  match r with
  | .ok (StepOut.next c) => some c.register_x
  | _ => none

/-- Projection: program counter after a `next` step. -/
def stepNextPC (r : Except Fault StepOut) : Option Nat :=
  match r with
  | .ok (StepOut.next c) => some c.program_counter
  | _ => none

/-! Concrete machine states and opcode descriptors used as test inputs. -/

/-- Memory image for the indirect-JMP page-bug input: pointer `0x30FF`
at the program counter, `0x34` at `0x30FF`, `0x12` at `0x3000` (start of
the pointer's page), `0x56` at `0x00FF`. -/
def exJmpBugMem : Nat → Nat := fun a =>
  if a = 0x0200 then 0xFF else if a = 0x0201 then 0x30 else
  if a = 0x30FF then 0x34 else if a = 0x3000 then 0x12 else
  if a = 0x00FF then 0x56 else 0

def exJmpBug : CPU := { CPU.new with program_counter := 0x0200, memory := exJmpBugMem }

/-- Memory image for a non-page-boundary indirect JMP: pointer `0x0300`
holding the little-endian target `0x5678`. -/
def exJmpNormalMem : Nat → Nat := fun a =>
  if a = 0x0200 then 0x00 else if a = 0x0201 then 0x03 else
  if a = 0x0300 then 0x78 else if a = 0x0301 then 0x56 else 0

def exJmpNormal : CPU := { CPU.new with program_counter := 0x0200, memory := exJmpNormalMem }

/-- The standard indirect-JMP opcode descriptor (`0x6C`; the repository
table omits JMP so this descriptor is passed to `jmp` directly). -/
def opJMPInd : OpCode := ⟨0x6C, "JMP", 3, 5, AddressingMode.NoneAddressing⟩

/-- The standard CPY-immediate opcode descriptor (`0xC0`). -/
def opCPYImm : OpCode := ⟨0xC0, "CPY", 2, 2, AddressingMode.Immediate⟩

/-- The standard CMP-immediate opcode descriptor (`0xC9`). -/
def opCMPImm : OpCode := ⟨0xC9, "CMP", 2, 2, AddressingMode.Immediate⟩

/-- Y = 2 comparing against an immediate operand 2. -/
def exCpyEq : CPU := { CPU.new with
  register_y := 2
  program_counter := 0x10
  memory := fun a => if a = 0x10 then 2 else 0 }

/-- Y = 1 comparing against an immediate operand 2. -/
def exCpyLess : CPU := { CPU.new with
  register_y := 1
  program_counter := 0x10
  memory := fun a => if a = 0x10 then 2 else 0 }

/-- A = 0x80 comparing against an immediate operand 0. -/
def exCmpNegBit : CPU := { CPU.new with register_a := 0x80, program_counter := 0x10 }

/-- A = 0 with the Carry flag already set, comparing against operand 1. -/
def exCmpStale : CPU := { CPU.new with
  status := Processor.new.set_carry
  program_counter := 0x10
  memory := fun a => if a = 0x10 then 1 else 0 }

/-- A = 0b1000_0000 with Carry clear, input for the accumulator ROL. -/
def exRol : CPU := { CPU.new with register_a := 0x80 }

/-- A = 0b0000_0001 with Carry set, input for the accumulator ROR. -/
def exRor : CPU := { CPU.new with register_a := 0x01, status := Processor.new.set_carry }

/-- An opcode descriptor with the standard ROR-accumulator byte `0x6A`. -/
def opROR6A : OpCode := ⟨0x6A, "ROR", 1, 2, AddressingMode.NoneAddressing⟩

/-- An opcode descriptor with byte `0x2A` and mnemonic ROR (the byte the
source's `ror` dispatches to the accumulator handler). -/
def opROR2A : OpCode := ⟨0x2A, "ROR", 1, 2, AddressingMode.NoneAddressing⟩

/-- CPU whose stack pointer is 0 and whose Zero flag is clear. -/
def exTsx : CPU := { CPU.new with stack := ⟨0x01FF, 0x0100, 0⟩ }

/-- The end-to-end program `LDA #5; STA $00; DEC $00` from the spec and
from the repository's `test_lda_sta_dec`. -/
def c9program : List Nat := [0xA9, 0x05, 0x85, 0x00, 0xC6, 0x00]

/-- CPU about to fetch byte `0xA9` followed by operand `0x07`. -/
def exStepLDA : CPU := { CPU.new with
  program_counter := 0x10
  memory := fun a => if a = 0x10 then 0xA9 else if a = 0x11 then 0x07 else 0 }

/-- CPU with A = 5 about to fetch byte `0x91`. -/
def exStepTAX : CPU := { CPU.new with
  register_a := 5
  program_counter := 0x20
  memory := fun a => if a = 0x20 then 0x91 else 0 }

/-- The CPU state after `load` of the end-to-end program, extracted so
the run can be evaluated in stages. -/
def cLoaded : CPU :=
  match CPU.new.load c9program with
  | .ok c => c
  | .error _ => CPU.new

/-- The CPU state after `load` and `reset` of the end-to-end program. -/
def cReady : CPU :=
  match cLoaded.reset with
  | .ok c => c
  | .error _ => CPU.new

/-! Helper lemmas about the status-flag bit arithmetic. -/

/-- Bit facts for the `result = 0` branch of the composite update
(`set_zero` then `clear_negative`), over every 8-bit flags byte. -/
theorem updZN_bits_zero : ∀ f < 256,
    ((Processor.mk f).set_zero.clear_negative).zero = 1 ∧
    ((Processor.mk f).set_zero.clear_negative).negative = 0 ∧
    ((Processor.mk f).set_zero.clear_negative).carry = (Processor.mk f).carry ∧
    ((Processor.mk f).set_zero.clear_negative).interrupt = (Processor.mk f).interrupt ∧
    ((Processor.mk f).set_zero.clear_negative).decimal = (Processor.mk f).decimal ∧
    ((Processor.mk f).set_zero.clear_negative).overflow = (Processor.mk f).overflow ∧
    (((Processor.mk f).set_zero.clear_negative).flags >>> 4) &&& 1 = (f >>> 4) &&& 1 ∧
    (((Processor.mk f).set_zero.clear_negative).flags >>> 5) &&& 1 = (f >>> 5) &&& 1 := by
  decide

/-- Bit facts for the `result ≠ 0`, bit-7-clear branch (`clear_zero`
then `clear_negative`). -/
theorem updZN_bits_pos_low : ∀ f < 256,
    ((Processor.mk f).clear_zero.clear_negative).zero = 0 ∧
    ((Processor.mk f).clear_zero.clear_negative).negative = 0 ∧
    ((Processor.mk f).clear_zero.clear_negative).carry = (Processor.mk f).carry ∧
    ((Processor.mk f).clear_zero.clear_negative).interrupt = (Processor.mk f).interrupt ∧
    ((Processor.mk f).clear_zero.clear_negative).decimal = (Processor.mk f).decimal ∧
    ((Processor.mk f).clear_zero.clear_negative).overflow = (Processor.mk f).overflow ∧
    (((Processor.mk f).clear_zero.clear_negative).flags >>> 4) &&& 1 = (f >>> 4) &&& 1 ∧
    (((Processor.mk f).clear_zero.clear_negative).flags >>> 5) &&& 1 = (f >>> 5) &&& 1 := by
  decide

/-- Bit facts for the `result ≠ 0`, bit-7-set branch (`clear_zero` then
`set_negative`). -/
theorem updZN_bits_pos_high : ∀ f < 256,
    ((Processor.mk f).clear_zero.set_negative).zero = 0 ∧
    ((Processor.mk f).clear_zero.set_negative).negative = 1 ∧
    ((Processor.mk f).clear_zero.set_negative).carry = (Processor.mk f).carry ∧
    ((Processor.mk f).clear_zero.set_negative).interrupt = (Processor.mk f).interrupt ∧
    ((Processor.mk f).clear_zero.set_negative).decimal = (Processor.mk f).decimal ∧
    ((Processor.mk f).clear_zero.set_negative).overflow = (Processor.mk f).overflow ∧
    (((Processor.mk f).clear_zero.set_negative).flags >>> 4) &&& 1 = (f >>> 4) &&& 1 ∧
    (((Processor.mk f).clear_zero.set_negative).flags >>> 5) &&& 1 = (f >>> 5) &&& 1 := by
  decide

/-- For an 8-bit value, bit 7 read by a shift agrees with the
`result & 0b1000_0000` test used by the update. -/
theorem bit7_shift_vs_mask : ∀ r < 256,
    (r >>> 7) &&& 1 = (if r &&& 128 = 0 then 0 else 1) := by
  decide

/-- Invariant carried by every reachable status register: the flags fit
in a byte and bits 4-5 (`0b0011_0000 = 48`) are set. -/
def PInv (p : Processor) : Prop := p.flags < 256 ∧ p.flags &&& 48 = 48

/-- Every set/clear accessor keeps the flags inside a byte and leaves
bits 4-5 untouched. -/
theorem pflags_preserve : ∀ f < 256,
    ((f ||| 1) < 256 ∧ (f ||| 1) &&& 48 = f &&& 48) ∧
    ((f ||| 2) < 256 ∧ (f ||| 2) &&& 48 = f &&& 48) ∧
    ((f ||| 4) < 256 ∧ (f ||| 4) &&& 48 = f &&& 48) ∧
    ((f ||| 8) < 256 ∧ (f ||| 8) &&& 48 = f &&& 48) ∧
    ((f ||| 64) < 256 ∧ (f ||| 64) &&& 48 = f &&& 48) ∧
    ((f ||| 128) < 256 ∧ (f ||| 128) &&& 48 = f &&& 48) ∧
    ((f &&& 254) < 256 ∧ (f &&& 254) &&& 48 = f &&& 48) ∧
    ((f &&& 253) < 256 ∧ (f &&& 253) &&& 48 = f &&& 48) ∧
    ((f &&& 251) < 256 ∧ (f &&& 251) &&& 48 = f &&& 48) ∧
    ((f &&& 247) < 256 ∧ (f &&& 247) &&& 48 = f &&& 48) ∧
    ((f &&& 191) < 256 ∧ (f &&& 191) &&& 48 = f &&& 48) ∧
    ((f &&& 127) < 256 ∧ (f &&& 127) &&& 48 = f &&& 48) := by
  decide

/-- The composite zero/negative update preserves the invariant. -/
theorem pinv_update (p : Processor) (hp : PInv p) (r : Nat) :
    PInv (p.update_zero_and_negative r) := by
  obtain ⟨hlt, h48⟩ := hp
  have zstep : PInv (if r = 0 then p.set_zero else p.clear_zero) := by
    by_cases hz : r = 0
    · rw [if_pos hz]
      have h := (pflags_preserve p.flags hlt).2.1
      exact ⟨h.1, h.2.trans h48⟩
    · rw [if_neg hz]
      have h := (pflags_preserve p.flags hlt).2.2.2.2.2.2.2.1
      exact ⟨h.1, h.2.trans h48⟩
  obtain ⟨hqlt, hq48⟩ := zstep
  have hqp := pflags_preserve (if r = 0 then p.set_zero else p.clear_zero).flags hqlt
  show PInv (if r &&& 128 ≠ 0
    then (if r = 0 then p.set_zero else p.clear_zero).set_negative
    else (if r = 0 then p.set_zero else p.clear_zero).clear_negative)
  by_cases hn : r &&& 128 ≠ 0
  · rw [if_pos hn]
    have h := hqp.2.2.2.2.2.1
    exact ⟨h.1, h.2.trans hq48⟩
  · rw [if_neg hn]
    have h := hqp.2.2.2.2.2.2.2.2.2.2.2
    exact ⟨h.1, h.2.trans hq48⟩

/-- Every reachable status register satisfies the invariant. -/
theorem preach_inv : ∀ p, PReach p → PInv p := by
  intro p h
  induction h with
  | new_ => exact ⟨by decide, by decide⟩
  | step_set_carry p h ih =>
      have hop := (pflags_preserve p.flags ih.1).1
      exact ⟨hop.1, hop.2.trans ih.2⟩
  | step_set_zero p h ih =>
      have hop := (pflags_preserve p.flags ih.1).2.1
      exact ⟨hop.1, hop.2.trans ih.2⟩
  | step_set_interrupt p h ih =>
      have hop := (pflags_preserve p.flags ih.1).2.2.1
      exact ⟨hop.1, hop.2.trans ih.2⟩
  | step_set_decimal p h ih =>
      have hop := (pflags_preserve p.flags ih.1).2.2.2.1
      exact ⟨hop.1, hop.2.trans ih.2⟩
  | step_set_overflow p h ih =>
      have hop := (pflags_preserve p.flags ih.1).2.2.2.2.1
      exact ⟨hop.1, hop.2.trans ih.2⟩
  | step_set_negative p h ih =>
      have hop := (pflags_preserve p.flags ih.1).2.2.2.2.2.1
      exact ⟨hop.1, hop.2.trans ih.2⟩
  | step_clear_carry p h ih =>
      have hop := (pflags_preserve p.flags ih.1).2.2.2.2.2.2.1
      exact ⟨hop.1, hop.2.trans ih.2⟩
  | step_clear_zero p h ih =>
      have hop := (pflags_preserve p.flags ih.1).2.2.2.2.2.2.2.1
      exact ⟨hop.1, hop.2.trans ih.2⟩
  | step_clear_interrupt p h ih =>
      have hop := (pflags_preserve p.flags ih.1).2.2.2.2.2.2.2.2.1
      exact ⟨hop.1, hop.2.trans ih.2⟩
  | step_clear_decimal p h ih =>
      have hop := (pflags_preserve p.flags ih.1).2.2.2.2.2.2.2.2.2.1
      exact ⟨hop.1, hop.2.trans ih.2⟩
  | step_clear_overflow p h ih =>
      have hop := (pflags_preserve p.flags ih.1).2.2.2.2.2.2.2.2.2.2.1
      exact ⟨hop.1, hop.2.trans ih.2⟩
  | step_clear_negative p h ih =>
      have hop := (pflags_preserve p.flags ih.1).2.2.2.2.2.2.2.2.2.2.2
      exact ⟨hop.1, hop.2.trans ih.2⟩
  | step_update p r h ih => exact pinv_update p ih r

/-! Claim theorems. -/

/-- C1: the claim says CMP/CPX/CPY leave Carry set iff register ≥ memory,
Zero set iff equal, Negative = bit 7 of the wrapping subtraction, with
Carry and Zero evaluated independently and no panic.  The code diverges:
CPY with Y = operand = 2 takes the Carry branch and, Zero being its
`else if`, leaves Zero at 0; CPY with Y = 1 < operand = 2 panics on the
plain subtraction; CMP with A = 0x80 against 0 leaves Negative at 0 even
though bit 7 of the wrapped difference 0x80 is 1 (the code tests bit 1);
and CMP with a stale Carry and A = 0 < operand = 1 leaves Carry at 1
because Carry is never cleared. -/
theorem c1_compare_flag_divergence :
    (statusOf (exCpyEq.cpy opCPYImm)).map Processor.zero = some 0 ∧
    (statusOf (exCpyEq.cpy opCPYImm)).map Processor.carry = some 1 ∧
    faultOf (exCpyLess.cpy opCPYImm) = some Fault.subUnderflow ∧
    (statusOf (exCmpNegBit.cmp opCMPImm)).map Processor.negative = some 0 ∧
    wrapping_sub8 0x80 0 = 0x80 ∧ ((0x80 : Nat) >>> 7) &&& 1 = 1 ∧
    (statusOf (exCmpStale.cmp opCMPImm)).map Processor.carry = some 1 := by
  decide

/-- C2: for the indirect JMP with pointer `0x30FF`, the claim says the
target's high byte comes from `0x3000` (pointer & 0xFF00), giving target
`0x1234` on `exJmpBug`'s memory.  The code instead reads the high byte
from `addr & 0x00FF = 0x00FF`, producing `0x5634`.  The non-boundary
pointer `0x0300` dereferences little-endian as the claim says. -/
theorem c2_jmp_indirect_page_bug :
    pcOf (exJmpBug.jmp opJMPInd) = some 0x5634 ∧
    exJmpBugMem 0x3000 = 0x12 ∧ exJmpBugMem 0x00FF = 0x56 ∧
    pcOf (exJmpNormal.jmp opJMPInd) = some 0x5678 := by
  decide

/-- C3: the claim says memory is a 64 KiB array and every 16-bit address
can be read and written.  The Rust array is `[u8; 0xFFFF]` — 65535
bytes — so address `0xFFFF` indexes out of bounds and panics, while
`0xFFFE` still reads the zero-initialized byte. -/
theorem c3_memory_read_write_bounds :
    MEM_SIZE = 65535 ∧
    okOf (CPU.new.mem_read 0xFFFE) = some 0 ∧
    faultOf (CPU.new.mem_read 0xFFFF) = some (Fault.indexOutOfBounds 0xFFFF) ∧
    faultOf (CPU.new.mem_write 0xFFFF 0) = some (Fault.indexOutOfBounds 0xFFFF) := by
  decide

/-- C4: the claim says every `code` value appears exactly once in the
opcode table.  In the repository's table `0xA9` (INX and LDA-Immediate)
and `0x91` (STA-Indirect_Y and TAX) each appear twice; every other code
appears only once. -/
theorem c4_opcode_table_duplicates :
    (NMOS_6502_OPCODES.map OpCode.code).count 0xA9 = 2 ∧
    (NMOS_6502_OPCODES.map OpCode.code).count 0x91 = 2 ∧
    ((NMOS_6502_OPCODES.map OpCode.code).filter
      (fun c => c != 0xA9 && c != 0x91)).Nodup := by
  decide

/-- C5: the claim says ROL captures outgoing bit 7 into Carry, ROR
captures outgoing bit 0, and ROR selects the accumulator exactly for
opcode `0x6A`.  The code diverges: ROL on A = 0x80 (bit 7 set) clears
Carry because it tests bit 0; ROR on A = 0x01 (bit 0 set) clears Carry
because it tests bit 7; and `ror` dispatches the accumulator handler on
`0x2A`, so an opcode byte `0x6A` falls into the memory path and panics
on `NoneAddressing` while `0x2A` succeeds. -/
theorem c5_rotate_divergence :
    (exRol.register_a >>> 7) &&& 1 = 1 ∧
    (exRol.handle_accumulator_rol).1.status.carry = 0 ∧
    (exRol.handle_accumulator_rol).2 = 0 ∧
    exRor.register_a &&& 1 = 1 ∧
    (exRor.handle_accumulator_ror).1.status.carry = 0 ∧
    (exRor.handle_accumulator_ror).2 = 0x80 ∧
    faultOf (CPU.new.ror opROR6A) = some Fault.unsupportedMode ∧
    faultOf (CPU.new.ror opROR2A) = none := by
  decide

/-- C6: for every CPU whose status byte fits in 8 bits and every 8-bit
result, the composite update sets Zero iff the result is 0, sets
Negative to bit 7 of the result, and leaves every other status bit
(Carry, Interrupt, Decimal, Overflow, and the unused bits 4-5)
unchanged. -/
theorem c6_update_zero_and_negative (c : CPU) (r : Nat)
    (hf : c.status.flags < 256) (hr : r < 256) :
    (c.update_zero_and_negative_flags r).status.zero = (if r = 0 then 1 else 0) ∧
    (c.update_zero_and_negative_flags r).status.negative = (r >>> 7) &&& 1 ∧
    (c.update_zero_and_negative_flags r).status.carry = c.status.carry ∧
    (c.update_zero_and_negative_flags r).status.interrupt = c.status.interrupt ∧
    (c.update_zero_and_negative_flags r).status.decimal = c.status.decimal ∧
    (c.update_zero_and_negative_flags r).status.overflow = c.status.overflow ∧
    ((c.update_zero_and_negative_flags r).status.flags >>> 4) &&& 1 =
      (c.status.flags >>> 4) &&& 1 ∧
    ((c.update_zero_and_negative_flags r).status.flags >>> 5) &&& 1 =
      (c.status.flags >>> 5) &&& 1 := by
  have hs : (c.update_zero_and_negative_flags r).status =
      c.status.update_zero_and_negative r := rfl
  rw [hs]
  by_cases hz : r = 0
  · subst hz
    have hred : c.status.update_zero_and_negative 0 =
        c.status.set_zero.clear_negative := rfl
    rw [hred]
    obtain ⟨h1, h2, h3, h4, h5, h6, h7, h8⟩ := updZN_bits_zero c.status.flags hf
    refine ⟨?_, ?_, h3, h4, h5, h6, h7, h8⟩
    · rw [if_pos rfl]; exact h1
    · rw [show ((0 : Nat) >>> 7) &&& 1 = 0 from rfl]; exact h2
  · have hb7 := bit7_shift_vs_mask r hr
    by_cases hn : r &&& 128 = 0
    · have hred : c.status.update_zero_and_negative r =
          c.status.clear_zero.clear_negative := by
        simp [Processor.update_zero_and_negative, hz, hn]
      rw [hred]
      obtain ⟨h1, h2, h3, h4, h5, h6, h7, h8⟩ := updZN_bits_pos_low c.status.flags hf
      refine ⟨?_, ?_, h3, h4, h5, h6, h7, h8⟩
      · rw [if_neg hz]; exact h1
      · rw [hb7, if_pos hn]; exact h2
    · have hred : c.status.update_zero_and_negative r =
          c.status.clear_zero.set_negative := by
        simp [Processor.update_zero_and_negative, hz, hn]
      rw [hred]
      obtain ⟨h1, h2, h3, h4, h5, h6, h7, h8⟩ := updZN_bits_pos_high c.status.flags hf
      refine ⟨?_, ?_, h3, h4, h5, h6, h7, h8⟩
      · rw [if_neg hz]; exact h1
      · rw [hb7, if_neg hn]; exact h2

/-- Witness for C6 at the fresh CPU and result `0x85`. -/
theorem c6_update_zero_and_negative_witness :
    (CPU.new.update_zero_and_negative_flags 0x85).status.zero =
      (if (0x85 : Nat) = 0 then 1 else 0) ∧
    (CPU.new.update_zero_and_negative_flags 0x85).status.negative =
      ((0x85 : Nat) >>> 7) &&& 1 ∧
    (CPU.new.update_zero_and_negative_flags 0x85).status.carry = CPU.new.status.carry ∧
    (CPU.new.update_zero_and_negative_flags 0x85).status.interrupt =
      CPU.new.status.interrupt ∧
    (CPU.new.update_zero_and_negative_flags 0x85).status.decimal =
      CPU.new.status.decimal ∧
    (CPU.new.update_zero_and_negative_flags 0x85).status.overflow =
      CPU.new.status.overflow ∧
    ((CPU.new.update_zero_and_negative_flags 0x85).status.flags >>> 4) &&& 1 =
      (CPU.new.status.flags >>> 4) &&& 1 ∧
    ((CPU.new.update_zero_and_negative_flags 0x85).status.flags >>> 5) &&& 1 =
      (CPU.new.status.flags >>> 5) &&& 1 :=
  c6_update_zero_and_negative CPU.new 0x85 (by decide) (by decide)

/-- C7: the status register is constructed with byte `0b0011_0000`, and
every state reachable through the status operations (each set/clear
accessor and the composite zero/negative update) keeps bits 4-5 set. -/
theorem c7_unused_status_bits :
    Processor.new.flags = 0b00110000 ∧
    ∀ p, PReach p → p.flags &&& 0b00110000 = 0b00110000 :=
  ⟨rfl, fun p h => (preach_inv p h).2⟩

/-- Witness for C7 at the state reached by `set_carry` then the
composite update with result `0x80`. -/
theorem c7_unused_status_bits_witness :
    (Processor.new.set_carry.update_zero_and_negative 0x80).flags &&&
      0b00110000 = 0b00110000 :=
  c7_unused_status_bits.2 _
    (PReach.step_update _ 0x80 (PReach.step_set_carry _ PReach.new_))

/-- C8: the claim says every transfer except TXS — so including TSX —
updates Zero/Negative from the destination.  The code's `tsx` copies the
stack pointer into X but leaves the status register untouched: with
stack pointer 0 and a fresh status, X becomes 0 yet Zero stays 0.  By
contrast `tax` on a fresh CPU (A = 0) does set Zero. -/
theorem c8_tsx_skips_flag_update :
    (exTsx.tsx).register_x = 0 ∧
    (exTsx.tsx).status = exTsx.status ∧
    (exTsx.tsx).status.zero = 0 ∧
    CPU.new.tax.status.zero = 1 := by
  decide

/-- Reduction of an `Except` bind on a success value. -/
theorem except_bind_ok {α β : Type} (a : α) (f : α → Except Fault β) :
    ((Except.ok a : Except Fault α) >>= f) = f a := rfl

set_option maxHeartbeats 4000000 in
/-- C9: the claim says `load_and_run` on `LDA #5; STA $00; DEC $00`
terminates normally with A = 5 and memory[0] = 4.  The opcode table has
no entry for `0xC6` (DEC), so the third fetch aborts the run with the
`code not recognized` decode fault. -/
theorem c9_end_to_end_decode_fault :
    faultOf (CPU.new.load_and_run 10 c9program) =
      some (Fault.codeNotRecognized 0xC6) ∧
    NMOS_6502_OPCODES_MAP_get 0xC6 = none := by
  refine ⟨?_, by decide⟩
  have h1 : CPU.new.load c9program = .ok cLoaded := rfl
  have h2 : cLoaded.reset = .ok cReady := rfl
  show faultOf ((CPU.new.load c9program) >>= fun c =>
    c.reset >>= fun c => CPU.run 10 c) = some (Fault.codeNotRecognized 0xC6)
  rw [h1, except_bind_ok, h2, except_bind_ok]
  decide

/-- C10: the byte-to-descriptor map resolves a duplicated opcode byte to
the entry listed later in the vector: `0xA9` yields the LDA-Immediate
row (length 2), not the earlier INX row, and `0x91` yields the TAX row
(length 1), not the earlier STA-Indirect_Y row; hence a `run` step on
byte `0xA9` loads the immediate operand into A and advances the program
counter by 2, and a step on `0x91` copies A into X and advances by 1. -/
theorem c10_later_entry_wins :
    NMOS_6502_OPCODES_MAP_get 0xA9 =
      some ⟨0xA9, "LDA", 2, 2, AddressingMode.Immediate⟩ ∧
    NMOS_6502_OPCODES_MAP_get 0x91 =
      some ⟨0x91, "TAX", 1, 2, AddressingMode.NoneAddressing⟩ ∧
    NMOS_6502_OPCODES.get? 1 =
      some ⟨0xA9, "INX", 1, 2, AddressingMode.NoneAddressing⟩ ∧
    NMOS_6502_OPCODES.get? 16 =
      some ⟨0x91, "STA", 2, 6, AddressingMode.Indirect_Y⟩ ∧
    stepNextRegA (exStepLDA.run_step) = some 7 ∧
    stepNextPC (exStepLDA.run_step) = some 0x12 ∧
    stepNextRegX (exStepTAX.run_step) = some 5 ∧
    stepNextPC (exStepTAX.run_step) = some 0x21 := by
  decide
